import Mathlib

/-!
Verification of the image-server conversion pipeline (`src/server.js`).

The JavaScript source is shallowly embedded below.  The `sharp` image codec is
an external dependency of the repository: it is represented by an abstract
record of encoder/metadata functions (`Codec`), so that every theorem proved
over an arbitrary codec reflects only the logic of `server.js` itself.  JS
numbers that matter to the control flow (qualities, sizes, dimensions) are
embedded as `Int`/`Nat`; the aspect-ratio division, which in JS can produce
`Infinity`/`NaN`, is embedded by the small type `JsNum` with exact rational
values (float rounding plays no role in any property proved here).
-/

deriving instance DecidableEq for Except

/-- JS number results of divisions: a rational, an infinity, or NaN. -/
inductive JsNum where
  | num (q : ℚ)
  | posInf
  | negInf
  | nan
deriving DecidableEq, Repr

/-- JS division `a / b` for non-negative integer operands: division by zero
yields `Infinity` (or `NaN` for `0 / 0`) instead of an error. -/
def jsDivNat (a b : Nat) : JsNum :=
  if b = 0 then (if a = 0 then JsNum.nan else JsNum.posInf)
  else JsNum.num ((a : ℚ) / (b : ℚ))

/-- JS comparison `x > r` where `x` may be non-finite: `Infinity > r` is true,
`NaN > r` is false. -/
def jsGtQ (x : JsNum) (r : ℚ) : Bool :=
  match x with
  | JsNum.num q => decide (r < q)
  | JsNum.posInf => true
  | JsNum.negInf => false
  | JsNum.nan => false

/-- `Number(x.toFixed(2))`: rounding to two decimals; non-finite values map to
themselves (`Number("Infinity") = Infinity`). -/
def jsToFixed2 : JsNum → JsNum
  | JsNum.num q => JsNum.num ((round (q * 100) : ℤ) / 100)
  | x => x

/-- JS `q || d` on a number: `0` is falsy and falls back to the default. -/
def jsOrI (q d : Int) : Int :=
  if q = 0 then d else q

/-- JS `q || d` on a possibly-undefined number. -/
def jsOrOpt (q : Option Int) (d : Int) : Int :=
  match q with
  | none => d
  | some v => jsOrI v d

/-- JS truthiness of a possibly-undefined number (`undefined` and `0` falsy). -/
def jsTruthyOpt (x : Option Int) : Bool :=
  match x with
  | none => false
  | some v => v != 0

/-- ASCII lower-casing of one character (`String.prototype.toLowerCase` on the
ASCII format names used by the server). -/
def jsLowerChar (ch : Char) : Char :=
  if 65 ≤ ch.toNat ∧ ch.toNat ≤ 90 then Char.ofNat (ch.toNat + 32) else ch

/-- `String.prototype.toLowerCase` restricted to ASCII. -/
def jsToLower (s : String) : String :=
  String.mk (s.data.map jsLowerChar)

/-- Metadata reported by the codec's `metadata()` call. -/
structure ImgMeta where
  width : Nat
  height : Nat
  format : String
  hasAlpha : Bool
deriving DecidableEq, Repr

/-- Resize options object built at `server.js:133-138`. -/
structure ResizeSpec where
  width : Option Int
  height : Option Int
  fit : String
  withoutEnlargement : Bool
deriving DecidableEq, Repr

/-- A `sharp` processor pipeline: the source buffer plus the (at most one)
resize operation queued on it.  Re-encoding the same processor re-uses the
same single resize specification. -/
structure Proc (B : Type) where
  source : B
  resizeOp : Option ResizeSpec
deriving DecidableEq, Repr

/-- The external image codec (`sharp`), as an abstract dependency interface:
metadata/statistics extraction may fail (corrupt input), encoders are encode
functions from a processor pipeline and a quality to an output buffer, and
`length` is the byte length of a buffer. -/
structure Codec (B : Type) where
  metadata : B → Except String ImgMeta
  stats : B → Except String (Int × Int × Int)
  length : B → Nat
  encJpeg : Proc B → Int → B
  encPng : Proc B → Int → B
  encWebp : Proc B → Int → B
  encAvif : Proc B → Int → B
  encTiff : Proc B → Int → B

variable {B : Type}

/-- Conversion options as assembled by the route handlers and consumed by
`convertImage` (`server.js:127`).  `keepAspect` embeds the source's
`maintainAspectRatio` boolean. -/
structure ConvertOptions where
  outputFormat : String
  quality : Int
  width : Option Int
  height : Option Int
  keepAspect : Bool
  targetSizeKB : Option Int
deriving DecidableEq, Repr

/-- Resize stage of `convertImage` (`server.js:132-140`): the resize options
always carry `withoutEnlargement: true`; `fit` is `inside` exactly when the
aspect ratio is kept, else `fill`.  The resize is queued only when `width` or
`height` is (JS-)truthy. -/
def processorOf (o : ConvertOptions) (inputBuffer : B) : Proc B :=
  if jsTruthyOpt o.width || jsTruthyOpt o.height then
    { source := inputBuffer,
      resizeOp := some
        { width := o.width, height := o.height,
          fit := if o.keepAspect then ("inside") else ("fill"),
          withoutEnlargement := true } }
  else
    { source := inputBuffer, resizeOp := none }

/-- Initial encode dispatch of `convertImage` (`server.js:144-173`): switch on
the lower-cased output format with a `jpg` alias for `jpeg`; an unknown format
falls to the `default` branch (`none`, i.e. the thrown error). -/
def encodeFirst (c : Codec B) (fmtLower : String) (p : Proc B) (q : Int) :
    Option B :=
  if fmtLower = "jpeg" ∨ fmtLower = "jpg" then some (c.encJpeg p q)
  else if fmtLower = "png" then some (c.encPng p q)
  else if fmtLower = "webp" then some (c.encWebp p q)
  else if fmtLower = "avif" then some (c.encAvif p q)
  else if fmtLower = "tiff" then some (c.encTiff p q)
  else none

/-- Re-encode dispatch inside the size-fitting loop (`server.js:185-199`):
note that this switch has no `tiff` case and no `default`, so for any other
format the buffer is left unchanged. -/
def reencode (c : Codec B) (fmtLower : String) (p : Proc B) (q : Int)
    (buf : B) : B :=
  if fmtLower = "jpeg" ∨ fmtLower = "jpg" then c.encJpeg p q
  else if fmtLower = "png" then c.encPng p q
  else if fmtLower = "webp" then c.encWebp p q
  else if fmtLower = "avif" then c.encAvif p q
  else buf

/-- The size-fitting `while` loop (`server.js:181-200`): while the buffer is
larger than the byte target, quality exceeds 10 and fewer than 5 attempts were
made, lower quality by 15 and re-encode from the same processor.  `fuel` is
`maxAttempts - attempts`, initially 5. -/
def fitLoop (c : Codec B) (fmtLower : String) (p : Proc B)
    (targetBytes : Int) : Nat → B → Int → B
  | 0, buf, _ => buf
  | fuel + 1, buf, quality =>
    if targetBytes < (c.length buf : Int) ∧ 10 < quality then
      fitLoop c fmtLower p targetBytes fuel
        (reencode c fmtLower p (quality - 15) buf) (quality - 15)
    else buf

/-- `convertImage` (`server.js:127-207`): resize stage, format-dispatched
encode (default branch throws `Unsupported output format`), then the
size-fitting stage when `targetSizeKB` is truthy and the initial encode
exceeds `targetSizeKB * 1024` bytes. -/
def convertImage (c : Codec B) (inputBuffer : B) (o : ConvertOptions) :
    Except String B :=
  let p := processorOf o inputBuffer
  let fmtLower := jsToLower o.outputFormat
  let q0 := jsOrI o.quality 80
  match encodeFirst c fmtLower p q0 with
  | none =>
      Except.error
        (("Image conversion failed: Unsupported output format: ") ++
          o.outputFormat)
  | some buf =>
      match o.targetSizeKB with
      | some t =>
          if t ≠ 0 ∧ t * 1024 < (c.length buf : Int) then
            Except.ok (fitLoop c fmtLower p (t * 1024) 5 buf q0)
          else Except.ok buf
      | none => Except.ok buf

/-- Reference trace of the size-fitting loop: `fitTrace k` is the buffer after
`k` re-encode attempts, each performed on the same (already-resized) processor
at quality `q0 - 15 * k`. -/
def fitTrace (c : Codec B) (fmtLower : String) (p : Proc B) (q0 : Int)
    (buf0 : B) : Nat → B
  | 0 => buf0
  | k + 1 =>
      reencode c fmtLower p (q0 - 15 * ((k : Int) + 1))
        (fitTrace c fmtLower p q0 buf0 k)

/-- Result of `getImageInfo` (`server.js:77-91`); `aspectRatioQ` embeds the JS
division `metadata.width / metadata.height`. -/
structure ImgInfo where
  width : Nat
  height : Nat
  format : String
  size : Nat
  hasAlpha : Bool
  aspectRatioQ : JsNum
deriving DecidableEq, Repr

/-- `getImageInfo` (`server.js:77-91`): no zero-dimension check is performed;
the width/height division is executed unconditionally (in JS a zero height
yields `Infinity`/`NaN`, not an exception). -/
def getImageInfo (c : Codec B) (buffer : B) : Except String ImgInfo :=
  match c.metadata buffer with
  | Except.error e =>
      Except.error (("Failed to get image info: ") ++ e)
  | Except.ok m =>
      Except.ok
        { width := m.width, height := m.height, format := m.format,
          size := c.length buffer, hasAlpha := m.hasAlpha,
          aspectRatioQ := jsDivNat m.width m.height }

/-- One `rgb(r, g, b)` string. -/
def rgbStr (r g b : Int) : String :=
  ("rgb(") ++ toString r ++ (", ") ++ toString g ++ (", ") ++ toString b ++
    (")")

/-- `analyzeImageColors` (`server.js:93-110`): dominant color plus two fixed
channel-perturbation variants; on statistics failure, fall back to a fixed
greyscale palette instead of propagating the error. -/
def analyzeImageColors (c : Codec B) (buffer : B) : List String :=
  match c.stats buffer with
  | Except.ok (r, g, b) =>
      ([rgbStr r g b,
        rgbStr (max 0 (r - 30)) g b,
        rgbStr r (max 0 (g - 30)) b]).take 5
  | Except.error _ => [("#888888"), ("#666666"), ("#444444")]

/-- `recommendFormat` (`server.js:112-117`): fixed decision table, evaluated in
order — alpha, then gif, then the one-megapixel threshold, else webp. -/
def recommendFormat (info : ImgInfo) (hasTransparency : Bool) : String :=
  if hasTransparency then ("png")
  else if info.format = "gif" then ("gif")
  else if 1000000 < info.width * info.height then ("jpeg")
  else ("webp")

/-- `estimateQuality` (`server.js:119-125`): bytes-per-pixel density mapped to
a fixed quality score. -/
def estimateQuality (size width height : Nat) : Nat :=
  let pixelDensity := jsDivNat size (width * height)
  if jsGtQ pixelDensity 3 then 95
  else if jsGtQ pixelDensity 2 then 85
  else if jsGtQ pixelDensity 1 then 75
  else 65

/-- Own-property names of `Object.prototype`.  `PRESET_SIZES` is a JS object
literal inheriting from `Object.prototype`, so for these keys the lookup
`PRESET_SIZES[p]` finds a truthy inherited value (a function, or the
prototype object itself for `__proto__`) instead of `undefined`. -/
def protoKeys : List String :=
  ["constructor", "hasOwnProperty", "isPrototypeOf", "propertyIsEnumerable",
   "toLocaleString", "toString", "valueOf", "__defineGetter__",
   "__defineSetter__", "__lookupGetter__", "__lookupSetter__", "__proto__"]

/-- The lookup `PRESET_SIZES[p]` (table at `server.js:216-227`, lookups at
`303` and `403`): the ten own entries carry defined `width`/`height`
(`some (some w, some h)`); a name inherited from `Object.prototype` yields a
truthy value whose `width` and `height` properties are `undefined`
(`some (none, none)`); every other name yields `undefined` (`none`). -/
def PRESET_SIZES (p : String) : Option (Option Int × Option Int) :=
  if p = "square-small" then some (some 512, some 512)
  else if p = "square-large" then some (some 1024, some 1024)
  else if p = "portrait-small" then some (some 512, some 768)
  else if p = "portrait-large" then some (some 768, some 1024)
  else if p = "landscape-small" then some (some 768, some 512)
  else if p = "landscape-large" then some (some 1024, some 768)
  else if p = "facebook" then some (some 1200, some 630)
  else if p = "instagram" then some (some 1080, some 1080)
  else if p = "twitter" then some (some 1200, some 675)
  else if p = "linkedin" then some (some 1200, some 627)
  else if p ∈ protoKeys then some (none, none)
  else none

/-- Preset merge (`server.js:302-307` and `403-408`): when the lookup yields
a truthy value — a table entry, or an `Object.prototype` inherited name —
the branch runs and assigns that value's `width`/`height` onto the options
(both `undefined` for inherited names, clobbering any supplied dimensions);
only a falsy lookup result leaves the options unchanged. -/
def applyPreset (opts : ConvertOptions) (preset : Option String) :
    ConvertOptions :=
  match preset with
  | none => opts
  | some p =>
      match PRESET_SIZES p with
      | none => opts
      | some wh =>
          { opts with width := wh.1, height := wh.2 }

/-- An uploaded file, as delivered by `multer` memory storage. -/
structure UploadFile (B : Type) where
  originalname : String
  mimetype : String
  size : Nat
  buffer : B
deriving DecidableEq, Repr

/-- Parsed request body of `POST /api/convert-image` (`server.js:282`): form
fields, with `none` for an absent (or empty, hence JS-falsy) field; numeric
fields carry their `parseInt` value.  `keepAspect` holds the raw string of the
`maintainAspectRatio` field. -/
structure ReqBody where
  outputFormat : Option String
  quality : Option Int
  width : Option Int
  height : Option Int
  keepAspect : Option String
  targetSizeKB : Option Int
  preset : Option String
deriving DecidableEq, Repr

/-- Outcome of a route handler: JSON payload, 400 validation error, or 500. -/
inductive HResult (α : Type) where
  | ok (r : α)
  | badRequest (msg : String)
  | serverError (msg : String)
deriving DecidableEq, Repr

/-- Response payload of `POST /api/convert-image` (`server.js:317-335`),
restricted to the integer-valued fields the verified claims are about. -/
structure ConvertResponse where
  originalName : String
  originalSize : Nat
  originalWidth : Nat
  originalHeight : Nat
  convertedSize : Nat
  convertedWidth : Nat
  convertedHeight : Nat
  finalQuality : Int
deriving DecidableEq, Repr

/-- `POST /api/convert-image` handler (`server.js:273-344`): validate file and
`outputFormat`, read original metadata, build options (preset merge last),
convert, read converted metadata, and answer with `finalQuality` taken from
`convertOptions.quality`.  Any thrown error becomes a 500 response. -/
def convertImageHandler (c : Codec B) (file : Option (UploadFile B))
    (body : ReqBody) : HResult ConvertResponse :=
  match file with
  | none => HResult.badRequest ("No file provided")
  | some f =>
      match body.outputFormat with
      | none => HResult.badRequest ("Output format is required")
      | some fmt =>
          match getImageInfo c f.buffer with
          | Except.error e => HResult.serverError e
          | Except.ok originalInfo =>
              let opts :=
                applyPreset
                  { outputFormat := jsToLower fmt,
                    quality := (body.quality).getD 80,
                    width := body.width, height := body.height,
                    keepAspect := body.keepAspect ≠ some ("false"),
                    targetSizeKB := body.targetSizeKB }
                  body.preset
              match convertImage c f.buffer opts with
              | Except.error e => HResult.serverError e
              | Except.ok converted =>
                  match getImageInfo c converted with
                  | Except.error e => HResult.serverError e
                  | Except.ok convertedInfo =>
                      HResult.ok
                        { originalName := f.originalname,
                          originalSize := originalInfo.size,
                          originalWidth := originalInfo.width,
                          originalHeight := originalInfo.height,
                          convertedSize := convertedInfo.size,
                          convertedWidth := convertedInfo.width,
                          convertedHeight := convertedInfo.height,
                          finalQuality := opts.quality }

/-- Response payload of `POST /api/analyze-image` (`server.js:249-261`). -/
structure AnalysisResponse where
  colors : List String
  hasTransparency : Bool
  aspectRatioQ : JsNum
  recommendedFormat : String
  estimatedQuality : Nat
  metaWidth : Nat
  metaHeight : Nat
  metaFormat : String
  metaSize : Nat
deriving DecidableEq, Repr

/-- `POST /api/analyze-image` handler (`server.js:232-270`). -/
def analyzeHandler (c : Codec B) (file : Option (UploadFile B)) :
    HResult AnalysisResponse :=
  match file with
  | none => HResult.badRequest ("No file provided")
  | some f =>
      match getImageInfo c f.buffer with
      | Except.error e => HResult.serverError e
      | Except.ok info =>
          let colors := analyzeImageColors c f.buffer
          let hasTransparency := info.hasAlpha
          HResult.ok
            { colors := colors,
              hasTransparency := hasTransparency,
              aspectRatioQ := jsToFixed2 info.aspectRatioQ,
              recommendedFormat := recommendFormat info hasTransparency,
              estimatedQuality :=
                estimateQuality info.size info.width info.height,
              metaWidth := info.width, metaHeight := info.height,
              metaFormat := info.format, metaSize := info.size }

/-- Parsed batch settings of `POST /api/convert-batch` (`server.js:356-375`),
after the JSON/form-field transport step; `keepAspect` holds the already
boolean-valued `maintainAspectRatio` setting. -/
structure BatchSettings where
  outputFormat : Option String
  quality : Option Int
  width : Option Int
  height : Option Int
  keepAspect : Option Bool
  targetSizeKB : Option Int
  preset : Option String
deriving DecidableEq, Repr

/-- Per-item conversion options of the batch loop (`server.js:393-408`). -/
def batchConvertOptions (s : BatchSettings) (fmt : String) : ConvertOptions :=
  applyPreset
    { outputFormat := jsToLower fmt,
      quality := jsOrOpt s.quality 80,
      width := s.width, height := s.height,
      keepAspect := s.keepAspect ≠ some false,
      targetSizeKB := s.targetSizeKB }
    s.preset

/-- Successful per-item batch record (`server.js:418-437`), restricted to the
fields the claims are about. -/
structure BatchSuccess where
  originalName : String
  originalSize : Nat
  originalWidth : Nat
  originalHeight : Nat
  convertedSize : Nat
  convertedWidth : Nat
  convertedHeight : Nat
  finalQuality : Int
deriving DecidableEq, Repr

/-- One entry of the batch `results` array: `status: 'success'` with the full
record, or `status: 'failed'` with the original filename, size, mimetype and
the error message (`server.js:447-455`). -/
inductive BatchItem where
  | success (r : BatchSuccess)
  | failed (originalname : String) (size : Nat) (mimetype : String)
      (error : String)
deriving DecidableEq, Repr

/-- The `try` body of one batch iteration (`server.js:388-441`): original
metadata, options, conversion, converted metadata; the first thrown error
aborts only this item. -/
def processItem (c : Codec B) (s : BatchSettings) (fmt : String)
    (f : UploadFile B) : Except String BatchSuccess := do
  let originalInfo ← getImageInfo c f.buffer
  let opts := batchConvertOptions s fmt
  let converted ← convertImage c f.buffer opts
  let convertedInfo ← getImageInfo c converted
  Except.ok
    { originalName := f.originalname,
      originalSize := originalInfo.size,
      originalWidth := originalInfo.width,
      originalHeight := originalInfo.height,
      convertedSize := convertedInfo.size,
      convertedWidth := convertedInfo.width,
      convertedHeight := convertedInfo.height,
      finalQuality := opts.quality }

/-- The `for` loop of the batch handler (`server.js:387-457`), accumulating
the results array, the errors array and the `totalProcessed` counter. -/
def batchLoop (c : Codec B) (s : BatchSettings) (fmt : String) :
    List (UploadFile B) → List BatchItem × List String × Nat →
      List BatchItem × List String × Nat
  | [], acc => acc
  | f :: rest, (results, errs, n) =>
      match processItem c s fmt f with
      | Except.ok r =>
          batchLoop c s fmt rest (results ++ [BatchItem.success r], errs, n + 1)
      | Except.error e =>
          batchLoop c s fmt rest
            (results ++
              [BatchItem.failed (f.originalname) (f.size) (f.mimetype) e],
             errs ++ [f.originalname ++ (": ") ++ e], n)

/-- Response payload of `POST /api/convert-batch` (`server.js:459-464`). -/
structure BatchResponse where
  results : List BatchItem
  totalProcessed : Nat
  totalErrors : Nat
  errors : Option (List String)
deriving DecidableEq, Repr

/-- `POST /api/convert-batch` handler (`server.js:347-473`): reject an empty
file list or missing `outputFormat` up front, then run the per-item loop and
aggregate. -/
def convertBatchHandler (c : Codec B) (files : List (UploadFile B))
    (settings : BatchSettings) : HResult BatchResponse :=
  if files.isEmpty then HResult.badRequest ("No files provided")
  else
    match settings.outputFormat with
    | none => HResult.badRequest ("Settings with outputFormat are required")
    | some fmt =>
        let acc := batchLoop c settings fmt files ([], [], 0)
        HResult.ok
          { results := acc.1,
            totalProcessed := acc.2.2,
            totalErrors := acc.2.1.length,
            errors := if 0 < acc.2.1.length then some acc.2.1 else none }

/-- Reference description of one batch item: what the loop appends to the
results array for a given file. -/
def itemOf (c : Codec B) (s : BatchSettings) (fmt : String)
    (f : UploadFile B) : BatchItem :=
  match processItem c s fmt f with
  | Except.ok r => BatchItem.success r
  | Except.error e =>
      BatchItem.failed (f.originalname) (f.size) (f.mimetype) e

/-- Reference description of the errors-array contribution of one file. -/
def errEntriesOf (c : Codec B) (s : BatchSettings) (fmt : String)
    (f : UploadFile B) : List String :=
  match processItem c s fmt f with
  | Except.ok _ => []
  | Except.error e => [f.originalname ++ (": ") ++ e]

/-- Whether a batch item converts successfully. -/
def isOkItem (c : Codec B) (s : BatchSettings) (fmt : String)
    (f : UploadFile B) : Bool :=
  match processItem c s fmt f with
  | Except.ok _ => true
  | Except.error _ => false

lemma fitTrace_succ (c : Codec B) (fmt : String) (p : Proc B) (q0 : Int)
    (buf0 : B) (k : Nat) :
    fitTrace c fmt p q0 buf0 (k + 1) =
      reencode c fmt p (q0 - 15 * ((k : Int) + 1))
        (fitTrace c fmt p q0 buf0 k) := rfl

/-- Characterisation of the size-fitting loop: starting at attempt index `j`,
the loop performs some `n ≤ fuel` further attempts, every performed attempt
was made while the buffer exceeded the target and quality exceeded 10, and if
the fuel was not exhausted the loop stopped because the size reached the
target or quality reached 10 or below. -/
lemma fitLoop_trace_spec (c : Codec B) (fmt : String) (p : Proc B)
    (t q0 : Int) (buf0 : B) :
    ∀ (fuel j : Nat), ∃ n : Nat, n ≤ fuel ∧
      fitLoop c fmt p t fuel (fitTrace c fmt p q0 buf0 j)
          (q0 - 15 * (j : Int)) =
        fitTrace c fmt p q0 buf0 (j + n) ∧
      (∀ k : Nat, k < n →
        t < (c.length (fitTrace c fmt p q0 buf0 (j + k)) : Int) ∧
          10 < q0 - 15 * ((j : Int) + (k : Int))) ∧
      (n < fuel →
        (c.length (fitTrace c fmt p q0 buf0 (j + n)) : Int) ≤ t ∨
          q0 - 15 * ((j : Int) + (n : Int)) ≤ 10) := by
  intro fuel
  induction fuel with
  | zero =>
      intro j
      refine ⟨0, le_rfl, by simp [fitLoop], ?_, ?_⟩
      · intro k hk; omega
      · intro h; omega
  | succ m ih =>
      intro j
      by_cases hg :
          t < (c.length (fitTrace c fmt p q0 buf0 j) : Int) ∧
            10 < q0 - 15 * (j : Int)
      · obtain ⟨n, hn, heq, hrun, hstop⟩ := ih (j + 1)
        refine ⟨n + 1, by omega, ?_, ?_, ?_⟩
        · have hq : q0 - 15 * (j : Int) - 15 = q0 - 15 * ((j : Int) + 1) := by
            ring
          have hcast : q0 - 15 * ((j : Int) + 1) =
              q0 - 15 * ((j + 1 : Nat) : Int) := by push_cast; ring
          have hidx : j + 1 + n = j + (n + 1) := by omega
          calc fitLoop c fmt p t (m + 1) (fitTrace c fmt p q0 buf0 j)
                (q0 - 15 * (j : Int))
              = fitLoop c fmt p t m
                  (reencode c fmt p (q0 - 15 * (j : Int) - 15)
                    (fitTrace c fmt p q0 buf0 j))
                  (q0 - 15 * (j : Int) - 15) := by
                simp only [fitLoop]; rw [if_pos hg]
            _ = fitLoop c fmt p t m (fitTrace c fmt p q0 buf0 (j + 1))
                  (q0 - 15 * ((j + 1 : Nat) : Int)) := by
                rw [hq, ← fitTrace_succ, hcast]
            _ = fitTrace c fmt p q0 buf0 (j + 1 + n) := heq
            _ = fitTrace c fmt p q0 buf0 (j + (n + 1)) := by rw [hidx]
        · intro k hk
          match k with
          | 0 =>
              refine ⟨by simpa using hg.1, ?_⟩
              have := hg.2
              push_cast
              omega
          | k' + 1 =>
              obtain ⟨h1, h2⟩ := hrun k' (by omega)
              have hidx : j + 1 + k' = j + (k' + 1) := by omega
              rw [hidx] at h1
              refine ⟨h1, ?_⟩
              push_cast at h2 ⊢
              omega
        · intro hlt
          have hs := hstop (by omega)
          have hidx : j + 1 + n = j + (n + 1) := by omega
          rw [hidx] at hs
          rcases hs with h | h
          · exact Or.inl h
          · right
            push_cast at h ⊢
            omega
      · refine ⟨0, by omega, ?_, ?_, ?_⟩
        · simp only [fitLoop]; rw [if_neg hg]; simp
        · intro k hk; omega
        · intro _
          rcases not_and_or.mp hg with h | h
          · left
            simpa using not_lt.mp h
          · right
            have := not_lt.mp h
            push_cast
            omega

/-- C1: in the size-fitting stage of `convertImage`, when `targetSizeKB` is
set (and truthy) and the initial encode exceeds it, the result is the `n`-th
element of the re-encode trace for some `n ≤ 5` (at most 5 re-encode
attempts), where attempt `k` re-encodes the already-resized processor at
quality `q0 - 15 * k` (fixed step 15 from the requested/default quality,
resize not repeated); every performed attempt happened while the buffer still
exceeded the target and quality still exceeded 10, and if fewer than 5
attempts were made the loop stopped because the size reached the target or
quality reached 10 or below; in every case the last produced buffer is
returned as a success, never an error. -/
theorem convertImage_size_fitting (c : Codec B) (inputBuffer : B)
    (o : ConvertOptions) (t : Int) (buf0 : B)
    (ht : o.targetSizeKB = some t) (ht0 : t ≠ 0)
    (h0 : encodeFirst c (jsToLower o.outputFormat)
            (processorOf o inputBuffer) (jsOrI o.quality 80) = some buf0)
    (hbig : t * 1024 < (c.length buf0 : Int)) :
    ∃ n : Nat, n ≤ 5 ∧
      convertImage c inputBuffer o =
        Except.ok
          (fitTrace c (jsToLower o.outputFormat) (processorOf o inputBuffer)
            (jsOrI o.quality 80) buf0 n) ∧
      (∀ k : Nat, k < n →
        t * 1024 <
            (c.length
              (fitTrace c (jsToLower o.outputFormat)
                (processorOf o inputBuffer) (jsOrI o.quality 80) buf0 k) :
              Int) ∧
          10 < jsOrI o.quality 80 - 15 * (k : Int)) ∧
      (n < 5 →
        (c.length
            (fitTrace c (jsToLower o.outputFormat) (processorOf o inputBuffer)
              (jsOrI o.quality 80) buf0 n) : Int) ≤ t * 1024 ∨
          jsOrI o.quality 80 - 15 * (n : Int) ≤ 10) := by
  obtain ⟨n, hn, heq, hrun, hstop⟩ :=
    fitLoop_trace_spec c (jsToLower o.outputFormat)
      (processorOf o inputBuffer) (t * 1024) (jsOrI o.quality 80) buf0 5 0
  simp only [Nat.cast_zero, mul_zero, sub_zero, Nat.zero_add, zero_add]
    at heq hrun hstop
  refine ⟨n, hn, ?_, ?_, ?_⟩
  · simp only [convertImage, h0, ht]
    rw [if_pos ⟨ht0, hbig⟩]
    rw [show fitTrace c (jsToLower o.outputFormat) (processorOf o inputBuffer)
          (jsOrI o.quality 80) buf0 0 = buf0 from rfl] at heq
    rw [heq]
  · intro k hk
    obtain ⟨h1, h2⟩ := hrun k hk
    exact ⟨h1, h2⟩
  · exact hstop

/-- Codec over `Int` buffers whose encoders return the quality they were
invoked with and whose buffers all report a large byte length, driving the
size-fitting loop to full exhaustion. -/
def bigCodec : Codec Int where
  metadata := fun _ => Except.error ("no metadata")
  stats := fun _ => Except.error ("no stats")
  length := fun _ => 10000
  encJpeg := fun _ q => q
  encPng := fun _ q => q
  encWebp := fun _ q => q
  encAvif := fun _ q => q
  encTiff := fun _ q => q

/-- Options driving the size-fitting loop to exhaustion: jpeg at the default
quality with a 1KB target. -/
def fitOpts : ConvertOptions :=
  { outputFormat := "jpeg", quality := 80, width := none, height := none,
    keepAspect := true, targetSizeKB := some 1 }

theorem convertImage_size_fitting_witness :
    fitOpts.targetSizeKB = some 1 ∧ (1 : Int) ≠ 0 ∧
    encodeFirst bigCodec (jsToLower (fitOpts.outputFormat))
        (processorOf fitOpts (7 : Int)) (jsOrI (fitOpts.quality) 80) =
      some 80 ∧
    (1 : Int) * 1024 < (bigCodec.length 80 : Int) ∧
    (∃ n : Nat, n ≤ 5 ∧
      convertImage bigCodec 7 fitOpts =
        Except.ok
          (fitTrace bigCodec (jsToLower (fitOpts.outputFormat))
            (processorOf fitOpts (7 : Int)) (jsOrI (fitOpts.quality) 80) 80
            n) ∧
      (∀ k : Nat, k < n →
        (1 : Int) * 1024 <
            (bigCodec.length
              (fitTrace bigCodec (jsToLower (fitOpts.outputFormat))
                (processorOf fitOpts (7 : Int)) (jsOrI (fitOpts.quality) 80)
                80 k) : Int) ∧
          10 < jsOrI (fitOpts.quality) 80 - 15 * (k : Int)) ∧
      (n < 5 →
        (bigCodec.length
            (fitTrace bigCodec (jsToLower (fitOpts.outputFormat))
              (processorOf fitOpts (7 : Int)) (jsOrI (fitOpts.quality) 80) 80
              n) : Int) ≤ (1 : Int) * 1024 ∨
          jsOrI (fitOpts.quality) 80 - 15 * (n : Int) ≤ 10)) :=
  ⟨rfl, by decide, by decide, by decide,
    convertImage_size_fitting bigCodec 7 fitOpts 1 80 rfl (by decide)
      (by decide) (by decide)⟩

lemma reencode_tiff (c : Codec B) (p : Proc B) (q : Int) (buf : B) :
    reencode c ("tiff") p q buf = buf := by
  unfold reencode
  rw [if_neg (by decide), if_neg (by decide), if_neg (by decide),
    if_neg (by decide)]

lemma fitLoop_tiff (c : Codec B) (p : Proc B) (t : Int) :
    ∀ (fuel : Nat) (buf : B) (q : Int),
      fitLoop c ("tiff") p t fuel buf q = buf := by
  intro fuel
  induction fuel with
  | zero => intro buf q; rfl
  | succ m ih =>
      intro buf q
      simp only [fitLoop]
      split
      · rw [reencode_tiff, ih]
      · rfl

lemma encodeFirst_tiff (c : Codec B) (p : Proc B) (q : Int) :
    encodeFirst c ("tiff") p q = some (c.encTiff p q) := by
  unfold encodeFirst
  rw [if_neg (by decide), if_neg (by decide), if_neg (by decide),
    if_neg (by decide), if_pos rfl]

/-- C9: when the output format is tiff, `targetSizeKB` is set (and truthy)
and the initial tiff encode exceeds the target, the size-fitting loop's
dispatch has no tiff branch, so no re-encode ever happens: the returned
buffer is exactly the initial tiff encode of the resized processor at the
requested/default quality, regardless of the target. -/
theorem convertImage_tiff_never_refits (c : Codec B) (inputBuffer : B)
    (o : ConvertOptions) (t : Int)
    (hfmt : jsToLower (o.outputFormat) = "tiff")
    (ht : o.targetSizeKB = some t) (ht0 : t ≠ 0)
    (hbig : t * 1024 <
      (c.length
        (c.encTiff (processorOf o inputBuffer) (jsOrI (o.quality) 80)) :
        Int)) :
    convertImage c inputBuffer o =
      Except.ok
        (c.encTiff (processorOf o inputBuffer) (jsOrI (o.quality) 80)) := by
  simp only [convertImage, hfmt, encodeFirst_tiff, ht]
  rw [if_pos ⟨ht0, hbig⟩, fitLoop_tiff]

/-- Options requesting tiff with an unreachable 1KB size target. -/
def tiffOpts : ConvertOptions :=
  { outputFormat := "tiff", quality := 80, width := none, height := none,
    keepAspect := true, targetSizeKB := some 1 }

theorem convertImage_tiff_never_refits_witness :
    jsToLower (tiffOpts.outputFormat) = "tiff" ∧
    tiffOpts.targetSizeKB = some 1 ∧ (1 : Int) ≠ 0 ∧
    (1 : Int) * 1024 <
      (bigCodec.length
        (bigCodec.encTiff (processorOf tiffOpts (7 : Int))
          (jsOrI (tiffOpts.quality) 80)) : Int) ∧
    convertImage bigCodec 7 tiffOpts =
      Except.ok
        (bigCodec.encTiff (processorOf tiffOpts (7 : Int))
          (jsOrI (tiffOpts.quality) 80)) :=
  ⟨by decide, rfl, by decide, by decide,
    convertImage_tiff_never_refits bigCodec 7 tiffOpts 1 (by decide) rfl
      (by decide) (by decide)⟩

lemma encodeFirst_jpg (c : Codec B) (p : Proc B) (q : Int) :
    encodeFirst c ("jpg") p q = some (c.encJpeg p q) := by
  unfold encodeFirst
  rw [if_pos (Or.inr rfl)]

/-- C10: the engine's output-format dispatch lower-cases the format and has a
`jpg` alias: `outputFormat` values `"JPG"` and `"jpg"` — both outside the
spec's five-value enum — succeed with a jpeg encode instead of failing with
an unsupported-format error. -/
theorem convertImage_jpg_alias (c : Codec B) (inputBuffer : B)
    (o : ConvertOptions)
    (hfmt : o.outputFormat = "JPG" ∨ o.outputFormat = "jpg")
    (ht : o.targetSizeKB = none) :
    convertImage c inputBuffer o =
      Except.ok
        (c.encJpeg (processorOf o inputBuffer) (jsOrI (o.quality) 80)) := by
  have hlow : jsToLower (o.outputFormat) = "jpg" := by
    rcases hfmt with h | h <;> rw [h] <;> decide
  simp only [convertImage, hlow, encodeFirst_jpg, ht]

/-- Options with upper-case format name `JPG`. -/
def jpgOpts : ConvertOptions :=
  { outputFormat := "JPG", quality := 70, width := none, height := none,
    keepAspect := true, targetSizeKB := none }

theorem convertImage_jpg_alias_witness :
    (jpgOpts.outputFormat = "JPG" ∨ jpgOpts.outputFormat = "jpg") ∧
    jpgOpts.targetSizeKB = none ∧
    convertImage bigCodec 7 jpgOpts =
      Except.ok
        (bigCodec.encJpeg (processorOf jpgOpts (7 : Int))
          (jsOrI (jpgOpts.quality) 80)) :=
  ⟨Or.inl rfl, rfl,
    convertImage_jpg_alias bigCodec 7 jpgOpts (Or.inl rfl) rfl⟩

/-- C8: `recommendFormat` is the fixed decision table evaluated in order —
png on transparency; else gif when the detected source format is gif; else
jpeg when the pixel count exceeds 1,000,000; else webp. -/
theorem recommendFormat_decision_table (info : ImgInfo)
    (hasTransparency : Bool) :
    (hasTransparency = true →
      recommendFormat info hasTransparency = "png") ∧
    (hasTransparency = false → info.format = "gif" →
      recommendFormat info hasTransparency = "gif") ∧
    (hasTransparency = false → info.format ≠ "gif" →
      1000000 < info.width * info.height →
      recommendFormat info hasTransparency = "jpeg") ∧
    (hasTransparency = false → info.format ≠ "gif" →
      info.width * info.height ≤ 1000000 →
      recommendFormat info hasTransparency = "webp") := by
  refine ⟨?_, ?_, ?_, ?_⟩
  · intro h; subst h; rfl
  · intro h hg; subst h; simp [recommendFormat, hg]
  · intro h hg hn; subst h; simp [recommendFormat, hg, hn]
  · intro h hg hn; subst h
    simp [recommendFormat, hg, Nat.not_lt.mpr hn]

/-- A 100x100 image with an alpha channel flag, used as table input. -/
def infoAlpha : ImgInfo :=
  { width := 100, height := 100, format := "png", size := 1000,
    hasAlpha := true, aspectRatioQ := JsNum.num 1 }

/-- A gif image. -/
def infoGif : ImgInfo :=
  { width := 100, height := 100, format := "gif", size := 1000,
    hasAlpha := false, aspectRatioQ := JsNum.num 1 }

/-- A 2000x1000 jpeg image (pixel count above one megapixel). -/
def infoLarge : ImgInfo :=
  { width := 2000, height := 1000, format := "jpeg", size := 1000,
    hasAlpha := false, aspectRatioQ := JsNum.num 2 }

/-- A small png image. -/
def infoSmall : ImgInfo :=
  { width := 100, height := 100, format := "png", size := 1000,
    hasAlpha := false, aspectRatioQ := JsNum.num 1 }

theorem recommendFormat_decision_table_witness :
    recommendFormat infoAlpha true = "png" ∧
    recommendFormat infoGif false = "gif" ∧
    recommendFormat infoLarge false = "jpeg" ∧
    recommendFormat infoSmall false = "webp" :=
  ⟨(recommendFormat_decision_table infoAlpha true).1 rfl,
   (recommendFormat_decision_table infoGif false).2.1 rfl rfl,
   (recommendFormat_decision_table infoLarge false).2.2.1 rfl (by decide)
     (by decide),
   (recommendFormat_decision_table infoSmall false).2.2.2 rfl (by decide)
     (by decide)⟩

/-- Options with explicit width and height, to be overwritten by a preset. -/
def presetOpts : ConvertOptions :=
  { outputFormat := "webp", quality := 70, width := some 5, height := some 6,
    keepAspect := true, targetSizeKB := some 9 }

/-- C5 (counterexample): `toString` is not an entry of the preset table, yet
the lookup finds the inherited, truthy `Object.prototype.toString`, so the
preset branch runs and overwrites the supplied width and height with
`undefined`: an unknown preset name does not always leave the request
unchanged, and the original width/height do not stand. -/
theorem applyPreset_proto_cex :
    ("toString") ∉
      ["square-small", "square-large", "portrait-small", "portrait-large",
       "landscape-small", "landscape-large", "facebook", "instagram",
       "twitter", "linkedin"] ∧
    presetOpts.width = some 5 ∧ presetOpts.height = some 6 ∧
    applyPreset presetOpts (some ("toString")) ≠ presetOpts ∧
    (applyPreset presetOpts (some ("toString"))).width = none ∧
    (applyPreset presetOpts (some ("toString"))).height = none :=
  ⟨by decide, rfl, rfl, by decide, by decide, by decide⟩

/-- C5 (amended): preset resolution touches only width and height and never
errors.  A preset found in the table overwrites width/height with the
preset's values (`instagram` gives 1080x1080 regardless of supplied
dimensions); a preset name inherited from `Object.prototype` (such as
`toString`) also passes the truthy lookup and overwrites width/height with
`undefined`; only for every other unknown preset name, or no preset, is the
request left unchanged; all other fields are untouched in every case. -/
theorem applyPreset_merge_rules :
    (∀ (opts : ConvertOptions) (p : String) (wh : Option Int × Option Int),
      PRESET_SIZES p = some wh →
      applyPreset opts (some p) =
        { opts with width := wh.1, height := wh.2 }) ∧
    (∀ (opts : ConvertOptions) (p : String),
      PRESET_SIZES p = none → applyPreset opts (some p) = opts) ∧
    (∀ opts : ConvertOptions, applyPreset opts none = opts) ∧
    PRESET_SIZES ("instagram") = some (some 1080, some 1080) ∧
    (∀ p : String, p ∈ protoKeys → PRESET_SIZES p = some (none, none)) := by
  refine ⟨?_, ?_, fun opts => rfl, by decide, by decide⟩
  · intro opts p wh hp
    simp [applyPreset, hp]
  · intro opts p hp
    simp [applyPreset, hp]

theorem applyPreset_merge_rules_witness :
    applyPreset presetOpts (some ("instagram")) =
      { presetOpts with width := some 1080, height := some 1080 } ∧
    applyPreset presetOpts (some ("toString")) =
      { presetOpts with width := none, height := none } ∧
    applyPreset presetOpts (some ("mystery")) = presetOpts :=
  ⟨applyPreset_merge_rules.1 presetOpts ("instagram") (some 1080, some 1080)
     (by decide),
   applyPreset_merge_rules.1 presetOpts ("toString") (none, none) (by decide),
   applyPreset_merge_rules.2.1 presetOpts ("mystery") (by decide)⟩

lemma applyPreset_quality (opts : ConvertOptions) (p : Option String) :
    (applyPreset opts p).quality = opts.quality := by
  cases p with
  | none => rfl
  | some s =>
      cases hps : PRESET_SIZES s <;> simp [applyPreset, hps]

/-- C2 (amended): for every successful single-image conversion, the
`finalQuality` field of the response equals the requested quality (default
80) taken from the request body; the handler reports `convertOptions.quality`
and not the quality actually used by the size-fitting loop's last encode. -/
theorem convertImageHandler_finalQuality (c : Codec B)
    (file : Option (UploadFile B)) (body : ReqBody) (r : ConvertResponse)
    (h : convertImageHandler c file body = HResult.ok r) :
    r.finalQuality = (body.quality).getD 80 := by
  unfold convertImageHandler at h
  split at h
  · exact absurd h (by simp)
  · split at h
    · exact absurd h (by simp)
    · split at h
      · exact absurd h (by simp)
      · simp only [] at h
        split at h
        · exact absurd h (by simp)
        · split at h
          · exact absurd h (by simp)
          · rw [HResult.ok.injEq] at h
            rw [← h]
            exact applyPreset_quality _ _

/-- Codec over `Int` buffers whose encoders return the quality they were
invoked with, so the returned buffer exhibits the quality of the last encode;
the initial (quality-80) encode is 2048 bytes, every other buffer 512 bytes,
so a 1KB target is met after exactly one re-encode. -/
def qCodec : Codec Int where
  metadata := fun _ =>
    Except.ok { width := 10, height := 10, format := "png", hasAlpha := false }
  stats := fun _ => Except.error ("no stats")
  length := fun b => if b = 80 then 2048 else 512
  encJpeg := fun _ q => q
  encPng := fun _ q => q
  encWebp := fun _ q => q
  encAvif := fun _ q => q
  encTiff := fun _ q => q

/-- An uploaded file over `Int` buffers. -/
def intFile : UploadFile Int :=
  { originalname := "photo.png", mimetype := "image/png", size := 3,
    buffer := 7 }

/-- Request body asking for jpeg with a 1KB size target and default quality. -/
def sizeBody : ReqBody :=
  { outputFormat := some ("jpeg"), quality := none, width := none,
    height := none, keepAspect := none, targetSizeKB := some 1,
    preset := none }

/-- The conversion options the handler builds for `sizeBody`. -/
def sizeOpts : ConvertOptions :=
  { outputFormat := "jpeg", quality := 80, width := none, height := none,
    keepAspect := true, targetSizeKB := some 1 }

/-- The response the handler produces for `sizeBody` over `qCodec`. -/
def sizeResp : ConvertResponse :=
  { originalName := "photo.png", originalSize := 512, originalWidth := 10,
    originalHeight := 10, convertedSize := 512, convertedWidth := 10,
    convertedHeight := 10, finalQuality := 80 }

/-- C2 (counterexample): under `qCodec` the buffer returned by `convertImage`
is the quality of the last successful encode; the size-fitting loop re-encoded
once at quality 65, yet the handler's response reports `finalQuality = 80`
(the requested default), so `finalQuality` is not the quality actually used
in the last successful encode. -/
theorem convertImageHandler_finalQuality_cex :
    convertImage qCodec 7 sizeOpts = Except.ok 65 ∧
    convertImageHandler qCodec (some intFile) sizeBody =
      HResult.ok sizeResp ∧
    sizeResp.finalQuality = 80 ∧ (65 : Int) ≠ 80 :=
  ⟨by decide, by decide, rfl, by decide⟩

theorem convertImageHandler_finalQuality_witness :
    sizeResp.finalQuality = (sizeBody.quality).getD 80 :=
  convertImageHandler_finalQuality qCodec (some intFile) sizeBody sizeResp
    (by decide)

/-- The format names accepted by the engine's encode dispatch. -/
def isSupportedFormat (fmt : String) : Prop :=
  fmt = "jpeg" ∨ fmt = "jpg" ∨ fmt = "png" ∨ fmt = "webp" ∨ fmt = "avif" ∨
    fmt = "tiff"

instance (fmt : String) : Decidable (isSupportedFormat fmt) := by
  unfold isSupportedFormat
  infer_instance

lemma jsLowerChar_idem (ch : Char) :
    jsLowerChar (jsLowerChar ch) = jsLowerChar ch := by
  by_cases h : 65 ≤ ch.toNat ∧ ch.toNat ≤ 90
  · have h1 : jsLowerChar ch = Char.ofNat (ch.toNat + 32) := by
      rw [jsLowerChar, if_pos h]
    have hv : (ch.toNat + 32).isValidChar := Or.inl (by omega)
    have ht : (Char.ofNat (ch.toNat + 32)).toNat = ch.toNat + 32 := by
      unfold Char.ofNat
      rw [dif_pos hv]
      rfl
    rw [h1, jsLowerChar, if_neg (by rw [ht]; omega)]
  · have h1 : jsLowerChar ch = ch := by rw [jsLowerChar, if_neg h]
    rw [h1]
    exact h1

lemma jsToLower_idem (s : String) : jsToLower (jsToLower s) = jsToLower s := by
  unfold jsToLower
  simp only [List.map_map]
  exact congrArg String.mk
    (List.map_congr_left (fun a _ => jsLowerChar_idem a))

lemma encodeFirst_unsupported (c : Codec B) (fmt : String) (p : Proc B)
    (q : Int) (h : ¬ isSupportedFormat fmt) :
    encodeFirst c fmt p q = none := by
  unfold isSupportedFormat at h
  push_neg at h
  obtain ⟨h1, h2, h3, h4, h5, h6⟩ := h
  unfold encodeFirst
  rw [if_neg (by tauto), if_neg h3, if_neg h4, if_neg h5, if_neg h6]

lemma convertImage_unsupported (c : Codec B) (inputBuffer : B)
    (o : ConvertOptions) (h : ¬ isSupportedFormat (jsToLower (o.outputFormat))) :
    convertImage c inputBuffer o =
      Except.error
        (("Image conversion failed: Unsupported output format: ") ++
          o.outputFormat) := by
  simp only [convertImage, encodeFirst_unsupported c _ _ _ h]

/-- C6 (amended): a missing `outputFormat` is rejected as a validation error
(`400`, message `Output format is required`) before the conversion engine or
the codec runs — the response is the same for every codec; but an
`outputFormat` that is present and unsupported is not pre-validated: the
engine is invoked and the failure surfaces as the engine's
`Unsupported output format` error in a 500 response. -/
theorem outputFormat_validation (c : Codec B) (f : UploadFile B)
    (body : ReqBody) :
    (body.outputFormat = none →
      convertImageHandler c (some f) body =
        HResult.badRequest ("Output format is required")) ∧
    (∀ (fmt : String) (m : ImgMeta), body.outputFormat = some fmt →
      ¬ isSupportedFormat (jsToLower fmt) →
      c.metadata (f.buffer) = Except.ok m →
      convertImageHandler c (some f) body =
        HResult.serverError
          (("Image conversion failed: Unsupported output format: ") ++
            jsToLower fmt)) := by
  constructor
  · intro hnone
    unfold convertImageHandler
    rw [hnone]
  · intro fmt m hsome hns hm
    unfold convertImageHandler
    rw [hsome]
    simp only []
    unfold getImageInfo
    rw [hm]
    simp only []
    have hlow :
        jsToLower
            ((applyPreset
              { outputFormat := jsToLower fmt,
                quality := (body.quality).getD 80,
                width := body.width, height := body.height,
                keepAspect := body.keepAspect ≠ some ("false"),
                targetSizeKB := body.targetSizeKB }
              (body.preset)).outputFormat) =
          jsToLower fmt := by
      cases hp : body.preset with
      | none => exact jsToLower_idem fmt
      | some s =>
          cases hps : PRESET_SIZES s <;>
            simp [applyPreset, hps, jsToLower_idem]
    have hc :
        convertImage c (f.buffer)
            (applyPreset
              { outputFormat := jsToLower fmt,
                quality := (body.quality).getD 80,
                width := body.width, height := body.height,
                keepAspect := body.keepAspect ≠ some ("false"),
                targetSizeKB := body.targetSizeKB }
              (body.preset)) =
          Except.error
            (("Image conversion failed: Unsupported output format: ") ++
              (applyPreset
                { outputFormat := jsToLower fmt,
                  quality := (body.quality).getD 80,
                  width := body.width, height := body.height,
                  keepAspect := body.keepAspect ≠ some ("false"),
                  targetSizeKB := body.targetSizeKB }
                (body.preset)).outputFormat) :=
      convertImage_unsupported _ _ _ (by rw [hlow]; exact hns)
    rw [hc]
    have hof :
        (applyPreset
            { outputFormat := jsToLower fmt,
              quality := (body.quality).getD 80,
              width := body.width, height := body.height,
              keepAspect := body.keepAspect ≠ some ("false"),
              targetSizeKB := body.targetSizeKB }
            (body.preset)).outputFormat = jsToLower fmt := by
      cases hp : body.preset with
      | none => rfl
      | some s => cases hps : PRESET_SIZES s <;> simp [applyPreset, hps]
    rw [hof]

/-- Request body with a present but unsupported output format `bmp`. -/
def bmpBody : ReqBody :=
  { outputFormat := some ("bmp"), quality := none, width := none,
    height := none, keepAspect := none, targetSizeKB := none, preset := none }

/-- C6 (counterexample): an `outputFormat` of `bmp` is present but not a
supported enum value; the handler does not reject it as a validation error —
the engine is invoked and its `Unsupported output format` failure is surfaced
as a 500 server error. -/
theorem outputFormat_validation_cex :
    convertImageHandler qCodec (some intFile) bmpBody =
      HResult.serverError
        ("Image conversion failed: Unsupported output format: bmp") ∧
    (∀ msg : String,
      convertImageHandler qCodec (some intFile) bmpBody ≠
        HResult.badRequest msg) :=
  ⟨by decide, fun msg h => by simp [show convertImageHandler qCodec
    (some intFile) bmpBody = HResult.serverError
    ("Image conversion failed: Unsupported output format: bmp")
    from by decide] at h⟩

/-- Request body with no output format at all. -/
def noFmtBody : ReqBody :=
  { outputFormat := none, quality := none, width := none, height := none,
    keepAspect := none, targetSizeKB := none, preset := none }

theorem outputFormat_validation_witness :
    convertImageHandler qCodec (some intFile) noFmtBody =
      HResult.badRequest ("Output format is required") ∧
    convertImageHandler qCodec (some intFile) bmpBody =
      HResult.serverError
        (("Image conversion failed: Unsupported output format: ") ++
          jsToLower ("bmp")) :=
  ⟨(outputFormat_validation qCodec intFile noFmtBody).1 rfl,
   (outputFormat_validation qCodec intFile bmpBody).2 ("bmp")
     { width := 10, height := 10, format := "png", hasAlpha := false }
     rfl (by decide) rfl⟩

/-- C7 (amended): `getImageInfo` has no zero-dimension check — when the codec
reports a zero height it still succeeds, producing an `Infinity` (or `NaN`)
aspect ratio exactly as the JS division does, and the analyze handler then
returns a 200 analysis result instead of failing with a decode error. -/
theorem analyze_zero_height (c : Codec B) (f : UploadFile B) (m : ImgMeta)
    (hm : c.metadata (f.buffer) = Except.ok m) (h0 : m.height = 0) :
    getImageInfo c (f.buffer) =
      Except.ok
        { width := m.width, height := m.height, format := m.format,
          size := c.length (f.buffer), hasAlpha := m.hasAlpha,
          aspectRatioQ := if m.width = 0 then JsNum.nan else JsNum.posInf } ∧
    (∃ res : AnalysisResponse,
      analyzeHandler c (some f) = HResult.ok res ∧
      res.aspectRatioQ =
        (if m.width = 0 then JsNum.nan else JsNum.posInf)) := by
  have hdiv : jsDivNat m.width m.height =
      if m.width = 0 then JsNum.nan else JsNum.posInf := by
    unfold jsDivNat
    rw [h0, if_pos rfl]
  have hinfo : getImageInfo c (f.buffer) =
      Except.ok
        { width := m.width, height := m.height, format := m.format,
          size := c.length (f.buffer), hasAlpha := m.hasAlpha,
          aspectRatioQ :=
            if m.width = 0 then JsNum.nan else JsNum.posInf } := by
    unfold getImageInfo
    rw [hm]
    simp only []
    rw [hdiv]
  have hh : analyzeHandler c (some f) =
      HResult.ok
        { colors := analyzeImageColors c (f.buffer),
          hasTransparency := m.hasAlpha,
          aspectRatioQ :=
            jsToFixed2 (if m.width = 0 then JsNum.nan else JsNum.posInf),
          recommendedFormat :=
            recommendFormat
              { width := m.width, height := m.height, format := m.format,
                size := c.length (f.buffer), hasAlpha := m.hasAlpha,
                aspectRatioQ :=
                  if m.width = 0 then JsNum.nan else JsNum.posInf }
              (m.hasAlpha),
          estimatedQuality :=
            estimateQuality (c.length (f.buffer)) m.width m.height,
          metaWidth := m.width, metaHeight := m.height,
          metaFormat := m.format, metaSize := c.length (f.buffer) } := by
    unfold analyzeHandler
    simp only []
    rw [hinfo]
  refine ⟨hinfo, _, hh, ?_⟩
  by_cases hw : m.width = 0 <;> simp [jsToFixed2, hw]

/-- Codec whose metadata reports a 5x0 image. -/
def zCodec : Codec Nat where
  metadata := fun _ =>
    Except.ok { width := 5, height := 0, format := "png", hasAlpha := false }
  stats := fun _ => Except.ok (10, 20, 30)
  length := fun _ => 100
  encJpeg := fun _ _ => 0
  encPng := fun _ _ => 0
  encWebp := fun _ _ => 0
  encAvif := fun _ _ => 0
  encTiff := fun _ _ => 0

/-- An uploaded file over `Nat` buffers. -/
def natFile : UploadFile Nat :=
  { originalname := "weird.png", mimetype := "image/png", size := 100,
    buffer := 1 }

/-- C7 (counterexample): analyzing an image whose decoded metadata reports a
zero height does not fail with a decode error — the handler performs the
division (yielding `Infinity`) and answers 200 with a full analysis result. -/
theorem analyze_zero_height_cex :
    analyzeHandler zCodec (some natFile) =
      HResult.ok
        { colors := [("rgb(10, 20, 30)"), ("rgb(0, 20, 30)"),
            ("rgb(10, 0, 30)")],
          hasTransparency := false, aspectRatioQ := JsNum.posInf,
          recommendedFormat := "webp", estimatedQuality := 95,
          metaWidth := 5, metaHeight := 0, metaFormat := "png",
          metaSize := 100 } ∧
    (∀ msg : String,
      analyzeHandler zCodec (some natFile) ≠ HResult.serverError msg) := by
  constructor
  · decide
  · intro msg h
    rw [show analyzeHandler zCodec (some natFile) =
      HResult.ok
        { colors := [("rgb(10, 20, 30)"), ("rgb(0, 20, 30)"),
            ("rgb(10, 0, 30)")],
          hasTransparency := false, aspectRatioQ := JsNum.posInf,
          recommendedFormat := "webp", estimatedQuality := 95,
          metaWidth := 5, metaHeight := 0, metaFormat := "png",
          metaSize := 100 } from by decide] at h
    exact HResult.noConfusion h

theorem analyze_zero_height_witness :
    zCodec.metadata (natFile.buffer) =
      Except.ok
        { width := 5, height := 0, format := "png", hasAlpha := false } ∧
    ((5 : Nat) ≠ 0) ∧
    (getImageInfo zCodec (natFile.buffer) =
      Except.ok
        { width := 5, height := 0, format := "png", size := 100,
          hasAlpha := false,
          aspectRatioQ := if (5 : Nat) = 0 then JsNum.nan else JsNum.posInf } ∧
    (∃ res : AnalysisResponse,
      analyzeHandler zCodec (some natFile) = HResult.ok res ∧
      res.aspectRatioQ =
        (if (5 : Nat) = 0 then JsNum.nan else JsNum.posInf))) :=
  ⟨rfl, by decide,
    analyze_zero_height zCodec natFile
      { width := 5, height := 0, format := "png", hasAlpha := false }
      rfl rfl⟩

lemma batchLoop_spec (c : Codec B) (s : BatchSettings) (fmt : String) :
    ∀ (files : List (UploadFile B)) (rs : List BatchItem) (es : List String)
      (n : Nat),
      batchLoop c s fmt files (rs, es, n) =
        (rs ++ files.map (itemOf c s fmt),
         es ++ files.flatMap (errEntriesOf c s fmt),
         n + files.countP (isOkItem c s fmt)) := by
  intro files
  induction files with
  | nil => intro rs es n; simp [batchLoop]
  | cons f rest ih =>
      intro rs es n
      simp only [batchLoop]
      cases hp : processItem c s fmt f with
      | ok r =>
          simp only []
          rw [ih]
          simp [itemOf, errEntriesOf, isOkItem, hp, List.countP_cons]
          omega
      | error e =>
          simp only []
          rw [ih]
          simp [itemOf, errEntriesOf, isOkItem, hp, List.countP_cons]

lemma errEntries_length (c : Codec B) (s : BatchSettings) (fmt : String) :
    ∀ files : List (UploadFile B),
      (files.flatMap (errEntriesOf c s fmt)).length =
        files.countP (fun f => !(isOkItem c s fmt f)) := by
  intro files
  induction files with
  | nil => rfl
  | cons f rest ih =>
      simp only [List.flatMap_cons, List.length_append, ih,
        List.countP_cons]
      unfold errEntriesOf isOkItem
      cases hp : processItem c s fmt f <;> simp [hp] <;> omega

lemma countP_ok_eq_sub (c : Codec B) (s : BatchSettings) (fmt : String) :
    ∀ files : List (UploadFile B),
      files.countP (isOkItem c s fmt) =
        files.length - files.countP (fun f => !(isOkItem c s fmt f)) := by
  intro files
  induction files with
  | nil => rfl
  | cons f rest ih =>
      simp only [List.countP_cons, List.length_cons, ih]
      have hle : rest.countP (fun f => !(isOkItem c s fmt f)) ≤
          rest.length := List.countP_le_length _
      cases hp : isOkItem c s fmt f <;> simp <;> omega

/-- C4: if the file list is non-empty and `outputFormat` is present, the
batch handler returns a 200 report in which the per-item results appear in
input order — each item independently mapped to its success record or to a
`failed` entry carrying the original filename and the error message —
`totalErrors` is the number `M` of failing items, and `totalProcessed` is
`N - M`; an item's failure never aborts the batch. -/
theorem convertBatch_isolation (c : Codec B) (files : List (UploadFile B))
    (settings : BatchSettings) (fmt : String)
    (hne : files ≠ []) (hof : settings.outputFormat = some fmt) :
    ∃ errsOpt : Option (List String),
      convertBatchHandler c files settings =
        HResult.ok
          { results := files.map (itemOf c settings fmt),
            totalProcessed :=
              files.length -
                files.countP (fun f => !(isOkItem c settings fmt f)),
            totalErrors :=
              files.countP (fun f => !(isOkItem c settings fmt f)),
            errors := errsOpt } := by
  refine
    ⟨if 0 < (files.flatMap (errEntriesOf c settings fmt)).length then
        some (files.flatMap (errEntriesOf c settings fmt))
      else none, ?_⟩
  unfold convertBatchHandler
  rw [if_neg (by simpa using hne), hof]
  simp only []
  rw [batchLoop_spec]
  simp only [List.nil_append, Nat.zero_add]
  rw [errEntries_length, countP_ok_eq_sub]

/-- Codec over `Nat` buffers for which buffer `0` is undecodable and every
other buffer decodes to a 4x4 png; encoding adds one to the buffer value. -/
def batchCodec : Codec Nat where
  metadata := fun b =>
    if b = 0 then Except.error ("Input buffer has corrupt header")
    else
      Except.ok { width := 4, height := 4, format := "png", hasAlpha := false }
  stats := fun _ => Except.error ("no stats")
  length := fun b => b
  encJpeg := fun p _ => p.source + 1
  encPng := fun p _ => p.source + 1
  encWebp := fun p _ => p.source + 1
  encAvif := fun p _ => p.source + 1
  encTiff := fun p _ => p.source + 1

/-- A batch of three uploads whose middle entry (buffer `0`) is corrupt. -/
def batchFiles : List (UploadFile Nat) :=
  [{ originalname := "a.png", mimetype := "image/png", size := 3,
     buffer := 5 },
   { originalname := "bad.png", mimetype := "image/png", size := 2,
     buffer := 0 },
   { originalname := "c.png", mimetype := "image/png", size := 4,
     buffer := 9 }]

/-- Plain batch settings: convert to png, everything else defaulted. -/
def batchSettings : BatchSettings :=
  { outputFormat := some ("png"), quality := none, width := none,
    height := none, keepAspect := none, targetSizeKB := none,
    preset := none }

theorem convertBatch_isolation_witness :
    batchFiles ≠ [] ∧ batchSettings.outputFormat = some ("png") ∧
    (∃ errsOpt : Option (List String),
      convertBatchHandler batchCodec batchFiles batchSettings =
        HResult.ok
          { results := batchFiles.map (itemOf batchCodec batchSettings ("png")),
            totalProcessed :=
              batchFiles.length -
                batchFiles.countP
                  (fun f => !(isOkItem batchCodec batchSettings ("png") f)),
            totalErrors :=
              batchFiles.countP
                (fun f => !(isOkItem batchCodec batchSettings ("png") f)),
            errors := errsOpt }) :=
  ⟨by decide, rfl,
    convertBatch_isolation batchCodec batchFiles batchSettings ("png")
      (by decide) rfl⟩

/-- Modelled from the spec: the external ImageCodec resize capability (the
`sharp` dependency, not part of this repository).  The resize stage passes a
request box, a `fit` policy and `withoutEnlargement: true` (§4.1: the policy
"never enlarge past source resolution").  For `fill`, each axis is forced to
the requested extent, capped at the source extent when `withoutEnlargement`
is set; for `inside`, both axes are scaled by the largest common factor that
fits the box, capped at 1 when `withoutEnlargement` is set.  A missing axis
defaults to the source extent. -/
def resizeDims (src : Nat × Nat) (spec : ResizeSpec) : Nat × Nat :=
  let reqW : Nat :=
    match spec.width with
    | some w => w.toNat
    | none => src.1
  let reqH : Nat :=
    match spec.height with
    | some h => h.toNat
    | none => src.2
  if spec.fit = "fill" then
    if spec.withoutEnlargement then (min reqW src.1, min reqH src.2)
    else (reqW, reqH)
  else
    let scale0 : ℚ := min ((reqW : ℚ) / (src.1 : ℚ)) ((reqH : ℚ) / (src.2 : ℚ))
    let scale : ℚ := if spec.withoutEnlargement then min scale0 1 else scale0
    (((round ((src.1 : ℚ) * scale) : ℤ)).toNat,
      ((round ((src.2 : ℚ) * scale) : ℤ)).toNat)

/-- Result of running a processor pipeline over the dimension codec: apply
the queued resize (if any) to the source dimensions. -/
def applyProc (p : Proc (Nat × Nat)) : Nat × Nat :=
  match p.resizeOp with
  | none => p.source
  | some spec => resizeDims p.source spec

/-- Codec whose buffers are summarised by their image dimensions: metadata
reports them, every encoder applies the queued resize and preserves them. -/
def dimCodec : Codec (Nat × Nat) where
  metadata := fun b =>
    Except.ok
      { width := b.1, height := b.2, format := "png", hasAlpha := false }
  stats := fun _ => Except.ok (128, 128, 128)
  length := fun b => b.1 * b.2
  encJpeg := fun p _ => applyProc p
  encPng := fun p _ => applyProc p
  encWebp := fun p _ => applyProc p
  encAvif := fun p _ => applyProc p
  encTiff := fun p _ => applyProc p

lemma encodeFirst_dimCodec (fmt : String) (p : Proc (Nat × Nat)) (q : Int)
    (h : isSupportedFormat fmt) :
    encodeFirst dimCodec fmt p q = some (applyProc p) := by
  unfold encodeFirst
  rcases h with h | h | h | h | h | h <;> subst h
  · rw [if_pos (Or.inl rfl)]; rfl
  · rw [if_pos (Or.inr rfl)]; rfl
  · rw [if_neg (by decide), if_pos rfl]; rfl
  · rw [if_neg (by decide), if_neg (by decide), if_pos rfl]; rfl
  · rw [if_neg (by decide), if_neg (by decide), if_neg (by decide),
      if_pos rfl]
    rfl
  · rw [if_neg (by decide), if_neg (by decide), if_neg (by decide),
      if_neg (by decide), if_pos rfl]
    rfl

/-- C3 (amended): with `maintainAspectRatio = false` and both dimensions
given (positive) and no size target, the resize stage uses `fill` — but it
also always sets `withoutEnlargement`, so each output axis is
`min requested source`: the output has exactly the requested dimensions
only when neither requested dimension exceeds the source; a larger request
is capped at the source extent on that axis. -/
theorem convert_fill_dims (sw sh : Nat) (o : ConvertOptions) (w h : Int)
    (hw : o.width = some w) (hh : o.height = some h)
    (hw0 : 0 < w) (hh0 : 0 < h)
    (hk : o.keepAspect = false)
    (hf : isSupportedFormat (jsToLower (o.outputFormat)))
    (ht : o.targetSizeKB = none) :
    convertImage dimCodec (sw, sh) o =
      Except.ok (min (w.toNat) sw, min (h.toNat) sh) := by
  have hp : processorOf o ((sw, sh) : Nat × Nat) =
      { source := (sw, sh),
        resizeOp := some
          { width := some w, height := some h, fit := "fill",
            withoutEnlargement := true } } := by
    unfold processorOf
    rw [hw, hh, hk]
    rw [if_pos]
    · rfl
    · simp [jsTruthyOpt]
      omega
  simp only [convertImage, hp, ht,
    encodeFirst_dimCodec _ _ _ hf]
  simp only [applyProc, resizeDims]
  rfl

/-- Options forcing 200x200 without aspect preservation. -/
def forceOpts : ConvertOptions :=
  { outputFormat := "png", quality := 80, width := some 200,
    height := some 200, keepAspect := false, targetSizeKB := none }

/-- C3 (counterexample): requesting 200x200 with
`maintainAspectRatio = false` from a 100x100 source does not produce a
200x200 output — `withoutEnlargement` is always set, so the output stays at
100x100. -/
theorem convert_fill_dims_cex :
    convertImage dimCodec ((100, 100) : Nat × Nat) forceOpts =
      Except.ok (100, 100) ∧
    ((100, 100) : Nat × Nat) ≠ (200, 200) :=
  ⟨by decide, by decide⟩

/-- Options forcing 50x40 without aspect preservation. -/
def forceOptsSmall : ConvertOptions :=
  { outputFormat := "png", quality := 80, width := some 50,
    height := some 40, keepAspect := false, targetSizeKB := none }

theorem convert_fill_dims_witness :
    forceOptsSmall.width = some 50 ∧ forceOptsSmall.height = some 40 ∧
    (0 : Int) < 50 ∧ (0 : Int) < 40 ∧
    forceOptsSmall.keepAspect = false ∧
    isSupportedFormat (jsToLower (forceOptsSmall.outputFormat)) ∧
    forceOptsSmall.targetSizeKB = none ∧
    convertImage dimCodec ((100, 80) : Nat × Nat) forceOptsSmall =
      Except.ok (min ((50 : Int).toNat) 100, min ((40 : Int).toNat) 80) :=
  ⟨rfl, rfl, by decide, by decide, rfl, by decide, rfl,
    convert_fill_dims 100 80 forceOptsSmall 50 40 rfl rfl (by decide)
      (by decide) rfl (by decide) rfl⟩
